import Mathlib

/-!
Verification development for the Mkode-Portfolio client-side script bundle
(`portfolio/static/js/main.js` and its sibling variants).

Each JavaScript module is shallowly embedded: DOM/class state becomes an
explicit Lean structure, event handlers become pure state-transition
functions, and the per-frame cursor animation step becomes a function on a
rational-number state.  JavaScript numbers are modelled as `ℚ` (all
arithmetic the relevant code performs on them is exact: additions,
multiplications by rational literals, comparisons); the two irrational
library calls `Math.sqrt` and `Math.atan2` are passed in as explicit
parameters of the frame step, constrained by hypotheses where a theorem
needs their defining properties.
-/

namespace Portfolio

/-! ## Theme Management (main.js lines 197-212 / 817-832, part_000 lines 34-41)

State of the pieces the toggle handler touches: the two theme classes on
`document.documentElement` and the `localStorage` key `theme`
(`none` = key absent). -/

structure ThemeState where
  darkClass : Bool
  lightClass : Bool
  storedTheme : Option String
  deriving DecidableEq, Repr

/-- The `theme-toggle` click handler:
`isDark = root.classList.contains('dark-theme')`;
`root.classList.toggle('dark-theme', !isDark)`;
`root.classList.toggle('light-theme', isDark)`;
`localStorage.setItem('theme', isDark ? 'light' : 'dark')`. -/
def toggleClick (s : ThemeState) : ThemeState :=
  let isDark := s.darkClass
  { darkClass := !isDark
    lightClass := isDark
    storedTheme := some (if isDark then "light" else "dark") }

/-- The value the toggle handler writes to `localStorage` key `theme`
(`nextTheme = isDark ? 'light' : 'dark'`); this is the only write to that
key anywhere in the bundle. -/
def themeWrite (isDark : Bool) : String :=
  if isDark then "light" else "dark"

/-! ## Contact form submit handler (main.js lines 586-613 / 1225-1262,
part_000 lines 431-458)

The handler's interaction with the outside world is the fetch outcome; its
observable effects are toasts, the form-reset, and the submit button's
state.  `FetchOutcome.thrown` covers a rejected `fetch` *and* a throwing
`response.json()` (both land in the same `catch`); `resolved` carries
`response.ok` and the parsed body's `status`/`message` fields (`none` =
field absent/undefined). -/

inductive ToastType
  | info
  | success
  | error
  | loading
  deriving DecidableEq, Repr

structure Toast where
  type : ToastType
  /-- the `message` argument passed to `showToast`; `none` models passing
  JavaScript `undefined`. -/
  message : Option String
  deriving DecidableEq, Repr

inductive FetchOutcome
  | thrown
  | resolved (ok : Bool) (status : Option String) (message : Option String)
  deriving DecidableEq, Repr

structure SubmitEffects where
  /-- the loading toast was created (`showToast` no-ops without the
  `#toast-container` element). -/
  loadingToastShown : Bool
  /-- `loadingToastControl.remove()` ran. -/
  loadingToastRemoved : Bool
  /-- the toast shown after the fetch settled, if any. -/
  finalToast : Option Toast
  /-- `form.reset()` ran. -/
  formReset : Bool
  /-- `submitBtn.disabled` after the handler finished (the `finally` block). -/
  submitDisabledAfter : Bool
  /-- `submitBtn.innerHTML` after the handler finished. -/
  finalBtnContent : String
  deriving DecidableEq, Repr

/-- `data.message || 'Something went wrong.'` — JavaScript `||` takes the
fallback on `undefined`/`null` and on the empty string. -/
def messageOrFallback (msg : Option String) : String :=
  match msg with
  | none => "Something went wrong."
  | some m => if m = "" then "Something went wrong." else m

/-- The async submit handler, as a function from the fetch outcome to its
observable effects.  `containerPresent` records whether `#toast-container`
exists (it gates every toast, including the loading one: without it
`showToast` returns `undefined` and `loadingToastControl.remove()` is
skipped).  The catch-branch toast text follows the width-gated copy and
part_000 (`'Network error.'`); the capability-aware copy differs only in
that string (`'Network error. Please try again.'`), which no claim
depends on. -/
def submitHandler (containerPresent : Bool) (originalBtnContent : String)
    (outcome : FetchOutcome) : SubmitEffects :=
  let base : SubmitEffects :=
    { loadingToastShown := containerPresent
      loadingToastRemoved := containerPresent
      finalToast := none
      formReset := false
      submitDisabledAfter := false
      finalBtnContent := originalBtnContent }
  match outcome with
  | .thrown =>
      { base with
          finalToast := if containerPresent then
            some { type := .error, message := some "Network error." } else none }
  | .resolved ok status msg =>
      if ok = true ∧ status = some "success" then
        { base with
            finalToast := if containerPresent then
              some { type := .success, message := msg } else none
            formReset := true }
      else
        { base with
            finalToast := if containerPresent then
              some { type := .error, message := some (messageOrFallback msg) }
            else none }

/-! ## Scroll-spy navigation (main.js lines 273-307 / 893-927)

`updateActiveState` reads `window.scrollY`, `window.innerHeight`, the page's
`section[id]` elements (in document order, with their `offsetTop` /
`offsetHeight`), and updates every `a[href^="#"]` link. -/

structure PageSection where
  id : String
  offsetTop : ℚ
  offsetHeight : ℚ
  deriving DecidableEq, Repr

structure NavLink where
  href : String
  isActive : Bool
  ariaCurrentPage : Bool
  deriving DecidableEq, Repr

/-- `scrollPos >= top && scrollPos < bottom` for one section. -/
def inSection (scrollPos : ℚ) (sec : PageSection) : Bool :=
  decide (sec.offsetTop ≤ scrollPos) &&
    decide (scrollPos < sec.offsetTop + sec.offsetHeight)

/-- The `current` hash computed by `updateActiveState`: `'#main'` when
`window.scrollY < 100`, otherwise the first section (document order, the
loop `break`s) whose `[offsetTop, offsetTop + offsetHeight)` span contains
`scrollPos = window.scrollY + window.innerHeight * 0.4`. -/
def computeCurrent (scrollY innerHeight : ℚ) (sections : List PageSection) :
    Option String :=
  if scrollY < 100 then some "#main"
  else
    let scrollPos := scrollY + innerHeight * (2 / 5)
    (sections.find? (inSection scrollPos)).map (fun sec => "#" ++ sec.id)

/-- The link-updating part of `updateActiveState`: every link first loses
`is-active` and `aria-current`; then, if a `current` hash was found, every
link whose href equals it gains both. -/
def updateActiveState (scrollY innerHeight : ℚ) (sections : List PageSection)
    (links : List NavLink) : List NavLink :=
  let cleared := links.map fun a => { a with isActive := false, ariaCurrentPage := false }
  match computeCurrent scrollY innerHeight sections with
  | none => cleared
  | some cur =>
      cleared.map fun a =>
        if a.href = cur then { a with isActive := true, ariaCurrentPage := true } else a

/-! ## Custom cursor animation loop

Two variants exist in the bundle: the width-gated one (main.js lines
395-539, identical to part_000 lines 235-382) with constant
`LERP_SPEED = 0.15`, ring-size lerping and an idle shutdown, and the
capability-aware one (main.js lines 1015-1179) with
`RING_LERP = lockedItem ? 0.2 : 0.15` and an `isCursorActive` gate.

`lockedRect` is the `getBoundingClientRect()` of the locked element this
frame (`none` = no locked element).  `Math.sqrt` / `Math.atan2` values are
the `distv` / `atanv` parameters. -/

structure DomRect where
  left : ℚ
  top : ℚ
  width : ℚ
  height : ℚ
  deriving DecidableEq, Repr

structure CursorState where
  mouseX : ℚ
  mouseY : ℚ
  ringX : ℚ
  ringY : ℚ
  ringW : ℚ
  ringH : ℚ
  lockedRect : Option DomRect
  hasMoved : Bool
  isUnlocking : Bool
  isIdle : Bool
  deriving DecidableEq, Repr

/-- What one invocation of `loop` does: the successor state, whether it
called `requestAnimationFrame(loop)` again, and the
`(scaleX, scaleY, rotation)` triple written into `ring.style.transform`
(`none` when the frame returned before writing any style). -/
structure FrameResult where
  state : CursorState
  schedulesFrame : Bool
  transform : Option (ℚ × ℚ × ℚ)
  deriving DecidableEq, Repr

/-- The width-gated `loop`'s idle test (main.js lines 478-484):
`distMoved < 0.1 && sizeDiff < 0.5 && !lockedItem && !isUnlocking` with
`distMoved = |mouseX - ringX| + |mouseY - ringY|` and
`sizeDiff = |ringW - 40| + |ringH - 40|`. -/
def idleCond (s : CursorState) : Prop :=
  |s.mouseX - s.ringX| + |s.mouseY - s.ringY| < 1 / 10 ∧
  |s.ringW - 40| + |s.ringH - 40| < 1 / 2 ∧
  s.lockedRect = none ∧ s.isUnlocking = false

instance (s : CursorState) : Decidable (idleCond s) := by
  unfold idleCond; infer_instance

/-- One invocation of the width-gated variant's `loop` (main.js lines
475-538).  `distv` stands for `Math.sqrt(deltaX ** 2 + deltaY ** 2)` where
`deltaX = targetX - ringX`, `deltaY = targetY - ringY` are taken *after*
the lerp update; `atanv` stands for `Math.atan2(deltaY, deltaX)`. -/
def loopStep (s : CursorState) (distv atanv : ℚ) : FrameResult :=
  if s.hasMoved = false then { state := s, schedulesFrame := true, transform := none }
  else
    if idleCond s then
      { state := { s with isIdle := true }, schedulesFrame := false, transform := none }
    else
      let tgt : ℚ × ℚ × ℚ × ℚ :=
        match s.lockedRect with
        | some rect =>
            (rect.left + rect.width / 2, rect.top + rect.height / 2,
             rect.width + 16, rect.height + 16)
        | none => (s.mouseX, s.mouseY, 40, 40)
      let targetX := tgt.1
      let targetY := tgt.2.1
      let targetWidth := tgt.2.2.1
      let targetHeight := tgt.2.2.2
      let ringX := s.ringX + (targetX - s.ringX) * (3 / 20)
      let ringY := s.ringY + (targetY - s.ringY) * (3 / 20)
      let ringW := s.ringW + (targetWidth - s.ringW) * (3 / 20)
      let ringH := s.ringH + (targetHeight - s.ringH) * (3 / 20)
      let scaling : ℚ × ℚ × ℚ :=
        if s.lockedRect = none ∧ s.isUnlocking = false then
          let stretch := min (distv * (4 / 1000)) (3 / 10)
          (1 + stretch, 1 - stretch * (1 / 2), if 1 < distv then atanv else 0)
        else (1, 1, 0)
      { state := { s with ringX := ringX, ringY := ringY, ringW := ringW, ringH := ringH }
        schedulesFrame := true
        transform := some scaling }

/-- State of the capability-aware variant (main.js lines 1015-1179); it has
no ring-size lerp and no idle flag, but an `isCursorActive` gate. -/
structure CursorStateCA where
  mouseX : ℚ
  mouseY : ℚ
  ringX : ℚ
  ringY : ℚ
  lockedRect : Option DomRect
  hasMoved : Bool
  isUnlocking : Bool
  isCursorActive : Bool
  deriving DecidableEq, Repr

structure FrameResultCA where
  state : CursorStateCA
  schedulesFrame : Bool
  transform : Option (ℚ × ℚ × ℚ)
  deriving DecidableEq, Repr

/-- One invocation of the capability-aware `loop` (main.js lines
1121-1174).  Here the stretch is computed *before* the lerp from
`deltaX = mouseX - ringX`, `deltaY = mouseY - ringY`; `distv` / `atanv`
stand for `Math.sqrt` / `Math.atan2` of those deltas. -/
def loopStepCA (s : CursorStateCA) (distv atanv : ℚ) : FrameResultCA :=
  if s.isCursorActive = false then { state := s, schedulesFrame := false, transform := none }
  else if s.hasMoved = false then { state := s, schedulesFrame := true, transform := none }
  else
    let ringLerp : ℚ := if s.lockedRect = none then 3 / 20 else 1 / 5
    let tgt : ℚ × ℚ :=
      match s.lockedRect with
      | some rect => (rect.left + rect.width / 2, rect.top + rect.height / 2)
      | none => (s.mouseX, s.mouseY)
    let targetX := tgt.1
    let targetY := tgt.2
    let scaling : ℚ × ℚ × ℚ :=
      match s.lockedRect with
      | some _ => (1, 1, 0)
      | none =>
          if s.isUnlocking = false then
            let stretch := min (distv * (4 / 1000)) (3 / 10)
            (1 + stretch, 1 - stretch * (1 / 2), if 1 < distv then atanv else 0)
          else (1, 1, 0)
    let ringX := s.ringX + (targetX - s.ringX) * ringLerp
    let ringY := s.ringY + (targetY - s.ringY) * ringLerp
    { state := { s with ringX := ringX, ringY := ringY }
      schedulesFrame := true
      transform := some scaling }

/-- A concrete in-flight frame state used to instantiate the loop theorems:
pointer at (100, 0), ring still at the origin and at base size, nothing
locked, not unlocking, pointer has moved. -/
def sampleRun : CursorState :=
  ⟨100, 0, 0, 0, 40, 40, none, true, false, false⟩

/-- The capability-aware analogue of `sampleRun`, active and unlocked. -/
def sampleRunCA : CursorStateCA :=
  ⟨100, 0, 0, 0, none, true, false, true⟩

/-- A capability-aware frame state locked onto an element with bounding box
`(left, top, width, height) = (20, 30, 100, 50)`. -/
def sampleLockedCA : CursorStateCA :=
  ⟨100, 0, 0, 0, some ⟨20, 30, 100, 50⟩, true, false, true⟩

/-! ## Cursor listener attachment (main.js lines 452-468 / 1094-1114,
part_000 lines 295-311)

For each DOM element we track whether it matches `interactiveSelectors`,
whether `shouldIgnore` holds for it, its `__cursorAttached` expando marker,
and how many mouseenter/mouseleave listener pairs have been added to it. -/

structure CursorElem where
  matchesInteractive : Bool
  ignored : Bool
  cursorAttached : Bool
  listenerPairs : Nat
  deriving DecidableEq, Repr

/-- Effect of one `attachCursorListeners` run on one element: elements in
`candidates` (matching the selector list, not yet carrying the
`__cursorAttached` marker, not ignored) get the marker set and one
mouseenter/mouseleave listener pair added; all others are untouched. -/
def attachOne (el : CursorElem) : CursorElem :=
  if el.matchesInteractive = true ∧ el.cursorAttached = false ∧ el.ignored = false then
    { el with cursorAttached := true, listenerPairs := el.listenerPairs + 1 }
  else el

/-- One run of `attachCursorListeners` over the document's elements. -/
def attachCursorListeners (els : List CursorElem) : List CursorElem :=
  els.map attachOne

/-! ## Palette storage (main.js lines 81-110, 129-186)

`applyPalette(colors)` ends with
`localStorage.setItem('custom-palette', JSON.stringify(colors))`; the only
other `localStorage` write in the bundle is the theme toggle's.  A palette
is modelled as the parsed array of strings; `JSON.stringify`/`JSON.parse`
round-trips are the identity in this model. -/

def DEFAULT_PALETTE : List String := ["#0f4c75", "#3282b8", "#bbe1fa", "#1b262c"]

def PALETTE_LIBRARY : List (List String) :=
  [DEFAULT_PALETTE,
   ["#1b3c53", "#234c6a", "#456882", "#e3e3e3"],
   ["#213448", "#547792", "#94b4c1", "#eae0cf"],
   ["#050e3c", "#002455", "#dc0000", "#ff3838"],
   ["#005461", "#018790", "#00b7b5", "#f4f4f4"],
   ["#360185", "#8f0177", "#de1a58", "#f4b342"],
   ["#1b211a", "#628141", "#8bae66", "#ebd5ab"],
   ["#434e78", "#607b8f", "#f7e396", "#e97f4a"],
   ["#5a9cb5", "#face68", "#faac68", "#fa6868"],
   ["#3291b6", "#bb8ed0", "#e0a8a8", "#f1e2e2"],
   ["#001f3d", "#ed985f", "#f7b980", "#e6e6e6"],
   ["#8a8635", "#aa2b1d", "#cc561e", "#f3cf7a"],
   ["#000080", "#ff0000", "#9e2a3a", "#3a2525"],
   ["#4d2b8c", "#85409d", "#eea727", "#ffef5f"],
   ["#222831", "#393e46", "#00adb5", "#eeeeee"],
   ["#3f72af", "#112d4e", "#dbe2ef", "#f9f7f7"],
   ["#ad8b73", "#ceab93", "#e3caa5", "#fffbe9"],
   ["#1b262c", "#0f4c75", "#3282b8", "#bbe1fa"],
   ["#27374d", "#526d82", "#9db2bf", "#dde6ed"],
   ["#6096b4", "#93bfcf", "#bdcdd6", "#eee9da"],
   ["#2c3e50", "#e74c3c", "#ecf0f1", "#3498db"],
   ["#e94560", "#0f3460", "#16213e", "#1a1a2e"],
   ["#008170", "#005b41", "#232d3f", "#0f0f0f"],
   ["#bb2525", "#ff6969", "#141e46", "#fff5e4"]]

def isHexDigit (c : Char) : Bool :=
  (decide ('0' ≤ c) && decide (c ≤ '9')) ||
  (decide ('a' ≤ c) && decide (c ≤ 'f')) ||
  (decide ('A' ≤ c) && decide (c ≤ 'F'))

/-- A CSS hex color string: `#` followed by 3 or 6 hex digits. -/
def isHexColor (s : String) : Bool :=
  match s.data with
  | '#' :: rest => (rest.length == 3 || rest.length == 6) && rest.all isHexDigit
  | _ => false

/-- The spec's stored-palette shape: an array of 4 hex-color strings. -/
def goodPalette (p : List String) : Bool :=
  p.length == 4 && p.all isHexColor

/-- `JSON.parse(localStorage.getItem('custom-palette')) || DEFAULT_PALETTE`
(`stored = none` models an absent key, which parses to `null`, which is
falsy). -/
def currentPalette (stored : Option (List String)) : List String :=
  stored.getD DEFAULT_PALETTE

/-- Stored `custom-palette` value plus the list of values written to that
key so far. -/
structure PaletteRun where
  stored : Option (List String)
  writes : List (List String)
  deriving DecidableEq, Repr

/-- Module initialization: `applyPalette(savedPalette)` with
`savedPalette = JSON.parse(localStorage.getItem('custom-palette')) ||
DEFAULT_PALETTE` — one write of the current palette. -/
def paletteInit (stored : Option (List String)) : PaletteRun :=
  let c := currentPalette stored
  { stored := some c, writes := [c] }

/-- A palette-card click: `renderPalettes` builds
`displayList = [current, ...others]` with `current` re-read from storage
and `others` drawn from `PALETTE_LIBRARY`, and the clicked card calls
`applyPalette` on its colors.  The model lets the click pick any member of
`current :: PALETTE_LIBRARY`, a superset of every possible rendered list,
selected by the index `k` (wrapped into range). -/
def paletteSelect (run : PaletteRun) (k : Nat) : PaletteRun :=
  let cards := currentPalette run.stored :: PALETTE_LIBRARY
  let c := cards.getD (k % cards.length) []
  { stored := some c, writes := run.writes ++ [c] }

/-- A whole session: initialization followed by any sequence of card
clicks. -/
def paletteSession (stored : Option (List String)) (ks : List Nat) : PaletteRun :=
  ks.foldl paletteSelect (paletteInit stored)

/-! ## Image carousel (main.js lines 1408-1545)

Slides and dots are modelled by lists of Booleans recording which elements
carry the `current-slide` class. -/

structure CarouselState where
  slides : List Bool
  dots : List Bool
  deriving DecidableEq, Repr

/-- `track.querySelector('.current-slide')` /
`dotsNav.querySelector('.current-slide')`: index of the first element
carrying the class. -/
def firstCurrent (l : List Bool) : Option Nat :=
  l.findIdx? id

/-- `moveToSlide(targetIndex)`: no-op unless both a current slide and the
target slide exist; otherwise moves the `current-slide` class on the
slides, then moves it on the dots (each side guarded by existence). -/
def moveToSlide (c : CarouselState) (targetIndex : Nat) : CarouselState :=
  match firstCurrent c.slides with
  | none => c
  | some cur =>
      if targetIndex < c.slides.length then
        let slides := (c.slides.set cur false).set targetIndex true
        let dots₁ :=
          match firstCurrent c.dots with
          | some d => c.dots.set d false
          | none => c.dots
        let dots := if targetIndex < dots₁.length then dots₁.set targetIndex true else dots₁
        { slides := slides, dots := dots }
      else c

/-- `showNextSlide`: `currentIndex = slides.findIndex(...)` (−1 when no
slide carries the class), `nextIndex = currentIndex + 1`, wrapping to 0 at
`slides.length`. -/
def showNextSlide (c : CarouselState) : CarouselState :=
  let currentIndex : Int :=
    match firstCurrent c.slides with
    | some i => (i : Int)
    | none => -1
  let nextIndex : Int :=
    if c.slides.length ≤ currentIndex + 1 then 0 else currentIndex + 1
  moveToSlide c nextIndex.toNat

/-- `showPrevSlide`: `prevIndex = currentIndex - 1`, wrapping to
`slides.length - 1` below 0. -/
def showPrevSlide (c : CarouselState) : CarouselState :=
  let currentIndex : Int :=
    match firstCurrent c.slides with
    | some i => (i : Int)
    | none => -1
  let prevIndex : Int :=
    if currentIndex - 1 < 0 then (c.slides.length : Int) - 1 else currentIndex - 1
  moveToSlide c prevIndex.toNat

/-- The carousel configuration the claim quantifies over: `n` elements of
which exactly the one at index `i` carries `current-slide`. -/
def oneHot (n i : Nat) : List Bool :=
  (List.replicate n false).set i true

/-! ## Theorems -/

/-- Evaluation lemma: a resolved response with `ok` and `status:'success'`
takes the success branch. -/
lemma submitHandler_success_case (orig : String) (m : Option String) :
    submitHandler true orig (.resolved true (some "success") m) =
      { loadingToastShown := true, loadingToastRemoved := true,
        finalToast := some { type := .success, message := m },
        formReset := true, submitDisabledAfter := false,
        finalBtnContent := orig } := rfl

/-- Evaluation lemma: any other resolved response takes the error branch. -/
lemma submitHandler_error_case (orig : String) (ok : Bool) (st m : Option String)
    (h : ¬(ok = true ∧ st = some "success")) :
    submitHandler true orig (.resolved ok st m) =
      { loadingToastShown := true, loadingToastRemoved := true,
        finalToast := some { type := .error, message := some (messageOrFallback m) },
        formReset := false, submitDisabledAfter := false,
        finalBtnContent := orig } := by
  simp [submitHandler, h]

/-- C1: for every contact-form submission whose fetch rejects, or whose
response is not ok, or whose parsed JSON `status` field is not
`'success'`, the submit handler (with the toast container present) shows a
generic error toast, removes the loading toast, and re-enables the submit
button with its original content restored. -/
theorem submit_failure_effects (orig : String) (o : FetchOutcome)
    (hfail : o = .thrown ∨
      ∃ ok st m, o = .resolved ok st m ∧ (ok = false ∨ st ≠ some "success")) :
    (∃ t, (submitHandler true orig o).finalToast = some t ∧ t.type = .error) ∧
    (submitHandler true orig o).loadingToastRemoved = true ∧
    (submitHandler true orig o).submitDisabledAfter = false ∧
    (submitHandler true orig o).finalBtnContent = orig := by
  rcases hfail with h | ⟨ok, st, m, h, hbad⟩
  · subst h
    exact ⟨⟨_, rfl, rfl⟩, rfl, rfl, rfl⟩
  · subst h
    have hne : ¬(ok = true ∧ st = some "success") := by
      rintro ⟨h1, h2⟩
      rcases hbad with h | h
      · rw [h1] at h; cases h
      · exact h h2
    rw [submitHandler_error_case orig ok st m hne]
    exact ⟨⟨_, rfl, rfl⟩, rfl, rfl, rfl⟩

theorem submit_failure_effects_witness :
    ((FetchOutcome.resolved false (some "success") none = .thrown ∨
      ∃ ok st m, FetchOutcome.resolved false (some "success") none = .resolved ok st m ∧
        (ok = false ∨ st ≠ some "success")) ∧
     (∃ t, (submitHandler true "Send" (.resolved false (some "success") none)).finalToast =
        some t ∧ t.type = .error)) := by
  have h := submit_failure_effects "Send" (.resolved false (some "success") none)
    (Or.inr ⟨false, some "success", none, rfl, Or.inl rfl⟩)
  exact ⟨Or.inr ⟨false, some "success", none, rfl, Or.inl rfl⟩, h.1⟩

/-- C2: with the toast container present, the submit handler shows a
success toast carrying the response's `message` field and resets the form
exactly when the fetch resolved, `response.ok` held and the body's
`status` field was `'success'`; every other resolved response yields an
error toast and no reset. -/
theorem submit_success_iff (orig : String) (o : FetchOutcome) :
    ((submitHandler true orig o).formReset = true ↔
      ∃ m, o = .resolved true (some "success") m) ∧
    ((∃ t, (submitHandler true orig o).finalToast = some t ∧ t.type = .success) ↔
      ∃ m, o = .resolved true (some "success") m) ∧
    (∀ m, o = .resolved true (some "success") m →
      (submitHandler true orig o).finalToast = some { type := .success, message := m }) ∧
    (∀ ok st m, o = .resolved ok st m → ¬(ok = true ∧ st = some "success") →
      (∃ t, (submitHandler true orig o).finalToast = some t ∧ t.type = .error) ∧
      (submitHandler true orig o).formReset = false) := by
  refine ⟨?_, ?_, ?_, ?_⟩
  · constructor
    · intro h
      cases o with
      | thrown => exact absurd h (by simp [submitHandler])
      | resolved ok st m =>
          by_cases hc : ok = true ∧ st = some "success"
          · exact ⟨m, by rw [hc.1, hc.2]⟩
          · rw [submitHandler_error_case orig ok st m hc] at h
            cases h
    · rintro ⟨m, rfl⟩
      rfl
  · constructor
    · rintro ⟨t, ht, htype⟩
      cases o with
      | thrown =>
          have : t = { type := .error, message := some "Network error." } := by
            have h' : some t = some ({ type := .error, message := some "Network error." } : Toast) := by
              rw [← ht]; rfl
            exact Option.some.inj h'.symm |>.symm
          rw [this] at htype
          cases htype
      | resolved ok st m =>
          by_cases hc : ok = true ∧ st = some "success"
          · exact ⟨m, by rw [hc.1, hc.2]⟩
          · rw [submitHandler_error_case orig ok st m hc] at ht
            have := Option.some.inj ht
            rw [← this] at htype
            cases htype
    · rintro ⟨m, rfl⟩
      exact ⟨_, rfl, rfl⟩
  · rintro m rfl
    rfl
  · rintro ok st m rfl hbad
    rw [submitHandler_error_case orig ok st m hbad]
    exact ⟨⟨_, rfl, rfl⟩, rfl⟩

theorem submit_success_iff_witness :
    (submitHandler true "Send" (.resolved true (some "success") (some "Thanks!"))).formReset
      = true ∧
    (submitHandler true "Send" (.resolved true (some "success") (some "Thanks!"))).finalToast
      = some { type := .success, message := some "Thanks!" } := by
  have h := submit_success_iff "Send" (.resolved true (some "success") (some "Thanks!"))
  exact ⟨h.1.mpr ⟨some "Thanks!", rfl⟩, h.2.2.1 (some "Thanks!") rfl⟩

/-- C3: from any state carrying exactly one of the `dark-theme` /
`light-theme` classes with the stored `theme` value matching it, two
clicks of the theme toggle restore the original class configuration and
stored value. -/
theorem theme_toggle_involutive (s : ThemeState)
    (hclass : s.darkClass = !s.lightClass)
    (hstore : s.storedTheme = some (if s.darkClass then "dark" else "light")) :
    toggleClick (toggleClick s) = s := by
  cases s with
  | mk d l st =>
      simp only at hclass hstore
      subst hclass
      rw [hstore]
      cases l <;> rfl

theorem theme_toggle_involutive_witness :
    toggleClick (toggleClick (⟨true, false, some "dark"⟩ : ThemeState)) =
      (⟨true, false, some "dark"⟩ : ThemeState) :=
  theme_toggle_involutive _ rfl rfl

/-- C5 (counterexample): an invocation of the width-gated `loop` on a
settled state — pointer at rest on the ring's position, ring at its base
size, nothing locked, no unlocking window — takes the idle path and does
*not* schedule another animation frame, refuting "every invocation of the
per-frame loop function schedules another animation frame". -/
theorem loop_idle_frame_does_not_reschedule :
    (loopStep (⟨10, 10, 10, 10, 40, 40, none, true, false, false⟩ : CursorState)
      0 0).schedulesFrame = false := by
  have hidle : idleCond (⟨10, 10, 10, 10, 40, 40, none, true, false, false⟩ : CursorState) := by
    refine ⟨?_, ?_, rfl, rfl⟩ <;> norm_num [idleCond]
  simp [loopStep, hidle]

/-- C5 (amended): every invocation of the width-gated `loop` either
schedules another animation frame or returns after setting the idle flag,
which happens exactly when the pointer has moved, the ring has settled
within the movement/size thresholds, no element is locked and no
unlocking window is active (the mousemove handler restarts the loop from
idle); the capability-aware variant's `loop` always schedules another
frame unless the cursor has been deactivated. -/
theorem loop_reschedules_or_idles (s : CursorState) (sca : CursorStateCA)
    (distv atanv : ℚ) :
    ((loopStep s distv atanv).schedulesFrame = true ∨
      ((loopStep s distv atanv).schedulesFrame = false ∧
       (loopStep s distv atanv).state.isIdle = true ∧
       s.hasMoved = true ∧ s.lockedRect = none ∧ s.isUnlocking = false ∧
       |s.mouseX - s.ringX| + |s.mouseY - s.ringY| < 1 / 10 ∧
       |s.ringW - 40| + |s.ringH - 40| < 1 / 2)) ∧
    ((loopStepCA sca distv atanv).schedulesFrame = true ∨
      sca.isCursorActive = false) := by
  constructor
  · by_cases hm : s.hasMoved = false
    · left
      simp [loopStep, hm]
    · by_cases hidle : idleCond s
      · refine Or.inr ⟨?_, ?_, Bool.not_eq_false _ |>.mp hm, hidle.2.2.1, hidle.2.2.2,
          hidle.1, hidle.2.1⟩ <;>
          simp [loopStep, hm, hidle]
      · left
        simp [loopStep, hm, hidle]
  · by_cases ha : sca.isCursorActive = false
    · exact Or.inr ha
    · left
      by_cases hm : sca.hasMoved = false <;> simp [loopStepCA, ha, hm]

/-- The ring's per-frame target position: the locked element's bounding-box
center when locked, else the raw pointer position (both variants compute
these identically). -/
def ringTarget (lockedRect : Option DomRect) (mouseX mouseY : ℚ) : ℚ × ℚ :=
  match lockedRect with
  | some rect => (rect.left + rect.width / 2, rect.top + rect.height / 2)
  | none => (mouseX, mouseY)

/-- C6: in every frame that updates the ring, each ring coordinate moves a
fixed fraction `c` of the remaining distance toward its target —
`new = old + c * (target - old)`, so the remaining distance shrinks by the
factor `1 - c` — with `c = 0.15` in the width-gated variant, and in the
capability-aware variant `c = 0.15` when unlocked and `c = 0.2` exactly
when locked; in all cases `0.15 ≤ c ≤ 0.2`. -/
theorem ring_lerp_fraction (s : CursorState) (sca : CursorStateCA) (distv atanv : ℚ)
    (hm : s.hasMoved = true) (hidle : ¬ idleCond s)
    (hact : sca.isCursorActive = true) (hmca : sca.hasMoved = true) :
    ((loopStep s distv atanv).state.ringX
        = s.ringX + 3 / 20 * ((ringTarget s.lockedRect s.mouseX s.mouseY).1 - s.ringX) ∧
     (loopStep s distv atanv).state.ringY
        = s.ringY + 3 / 20 * ((ringTarget s.lockedRect s.mouseX s.mouseY).2 - s.ringY) ∧
     (ringTarget s.lockedRect s.mouseX s.mouseY).1 - (loopStep s distv atanv).state.ringX
        = (1 - 3 / 20) * ((ringTarget s.lockedRect s.mouseX s.mouseY).1 - s.ringX) ∧
     (ringTarget s.lockedRect s.mouseX s.mouseY).2 - (loopStep s distv atanv).state.ringY
        = (1 - 3 / 20) * ((ringTarget s.lockedRect s.mouseX s.mouseY).2 - s.ringY)) ∧
    (∃ c : ℚ, 3 / 20 ≤ c ∧ c ≤ 1 / 5 ∧
      (sca.lockedRect = none → c = 3 / 20) ∧
      (sca.lockedRect ≠ none → c = 1 / 5) ∧
      (loopStepCA sca distv atanv).state.ringX
        = sca.ringX + c * ((ringTarget sca.lockedRect sca.mouseX sca.mouseY).1 - sca.ringX) ∧
      (loopStepCA sca distv atanv).state.ringY
        = sca.ringY + c * ((ringTarget sca.lockedRect sca.mouseX sca.mouseY).2 - sca.ringY) ∧
      (ringTarget sca.lockedRect sca.mouseX sca.mouseY).1
          - (loopStepCA sca distv atanv).state.ringX
        = (1 - c) * ((ringTarget sca.lockedRect sca.mouseX sca.mouseY).1 - sca.ringX) ∧
      (ringTarget sca.lockedRect sca.mouseX sca.mouseY).2
          - (loopStepCA sca distv atanv).state.ringY
        = (1 - c) * ((ringTarget sca.lockedRect sca.mouseX sca.mouseY).2 - sca.ringY)) := by
  have hmf : ¬ s.hasMoved = false := by simp [hm]
  have hactf : ¬ sca.isCursorActive = false := by simp [hact]
  have hmcaf : ¬ sca.hasMoved = false := by simp [hmca]
  constructor
  · cases hrect : s.lockedRect with
    | none =>
        refine ⟨?_, ?_, ?_, ?_⟩ <;>
          · simp [loopStep, hmf, hidle, hrect, ringTarget]
            ring
    | some rect =>
        refine ⟨?_, ?_, ?_, ?_⟩ <;>
          · simp [loopStep, hmf, hidle, hrect, ringTarget]
            ring
  · cases hrect : sca.lockedRect with
    | none =>
        refine ⟨3 / 20, le_refl _, by norm_num, fun _ => rfl, fun h => absurd rfl h,
          ?_, ?_, ?_, ?_⟩ <;>
          · simp [loopStepCA, hactf, hmcaf, hrect, ringTarget]
            ring
    | some rect =>
        refine ⟨1 / 5, by norm_num, le_refl _, fun h => Option.noConfusion h,
          fun _ => rfl, ?_, ?_, ?_, ?_⟩ <;>
          · simp [loopStepCA, hactf, hmcaf, hrect, ringTarget]
            ring

/-- `sampleRun` is not in the idle regime (the pointer is 100px from the
ring). -/
lemma sampleRun_not_idle : ¬ idleCond sampleRun := by
  intro h
  have := h.1
  norm_num [sampleRun] at this

theorem ring_lerp_fraction_witness :
    sampleRun.hasMoved = true ∧ ¬ idleCond sampleRun ∧
    (loopStep sampleRun 0 0).state.ringX
      = sampleRun.ringX + 3 / 20
          * ((ringTarget sampleRun.lockedRect sampleRun.mouseX sampleRun.mouseY).1
              - sampleRun.ringX) := by
  have h := ring_lerp_fraction sampleRun sampleRunCA 0 0 rfl sampleRun_not_idle rfl rfl
  exact ⟨rfl, sampleRun_not_idle, h.1.1⟩

/-- C7: in every frame of the cursor loop with no locked element and the
unlocking window inactive, the ring's stretch is
`min(0.004 * dist, 0.3)`, so `1 ≤ scaleX ≤ 1.3` and `0.85 ≤ scaleY ≤ 1`;
in every frame with a locked element or with the unlocking window active,
the written transform has `scaleX = scaleY = 1` and `rotation = 0`
(shown for both loop variants; `dist`, the value of `Math.sqrt`, is
nonnegative). -/
theorem stretch_bounds (s : CursorState) (sca : CursorStateCA) (distv atanv : ℚ)
    (hd : 0 ≤ distv)
    (hm : s.hasMoved = true) (hidle : ¬ idleCond s)
    (hact : sca.isCursorActive = true) (hmca : sca.hasMoved = true) :
    ((s.lockedRect = none ∧ s.isUnlocking = false →
        ∃ rot, (loopStep s distv atanv).transform =
          some (1 + min (distv * (4 / 1000)) (3 / 10),
                1 - min (distv * (4 / 1000)) (3 / 10) * (1 / 2), rot)) ∧
     (s.lockedRect ≠ none ∨ s.isUnlocking = true →
        (loopStep s distv atanv).transform = some (1, 1, 0))) ∧
    ((sca.lockedRect = none ∧ sca.isUnlocking = false →
        ∃ rot, (loopStepCA sca distv atanv).transform =
          some (1 + min (distv * (4 / 1000)) (3 / 10),
                1 - min (distv * (4 / 1000)) (3 / 10) * (1 / 2), rot)) ∧
     (sca.lockedRect ≠ none ∨ sca.isUnlocking = true →
        (loopStepCA sca distv atanv).transform = some (1, 1, 0))) ∧
    (1 ≤ 1 + min (distv * (4 / 1000)) (3 / 10) ∧
     1 + min (distv * (4 / 1000)) (3 / 10) ≤ 13 / 10 ∧
     17 / 20 ≤ 1 - min (distv * (4 / 1000)) (3 / 10) * (1 / 2) ∧
     1 - min (distv * (4 / 1000)) (3 / 10) * (1 / 2) ≤ 1) := by
  have hmf : ¬ s.hasMoved = false := by simp [hm]
  have hactf : ¬ sca.isCursorActive = false := by simp [hact]
  have hmcaf : ¬ sca.hasMoved = false := by simp [hmca]
  have h0 : (0 : ℚ) ≤ min (distv * (4 / 1000)) (3 / 10) :=
    le_min (by positivity) (by norm_num)
  have h3 : min (distv * (4 / 1000)) (3 / 10) ≤ 3 / 10 := min_le_right _ _
  refine ⟨⟨?_, ?_⟩, ⟨?_, ?_⟩, ?_, ?_, ?_, ?_⟩
  · rintro ⟨hl, hu⟩
    refine ⟨if 1 < distv then atanv else 0, ?_⟩
    simp [loopStep, hmf, hidle, hl, hu]
  · intro hsup
    have hcond : ¬ (s.lockedRect = none ∧ s.isUnlocking = false) := by
      rintro ⟨hl, hu⟩
      rcases hsup with h | h
      · exact h hl
      · rw [hu] at h; cases h
    simp [loopStep, hmf, hidle, hcond]
  · rintro ⟨hl, hu⟩
    refine ⟨if 1 < distv then atanv else 0, ?_⟩
    simp [loopStepCA, hactf, hmcaf, hl, hu]
  · intro hsup
    cases hrect : sca.lockedRect with
    | some rect => simp [loopStepCA, hactf, hmcaf, hrect]
    | none =>
        have hu : sca.isUnlocking = true := by
          rcases hsup with h | h
          · exact absurd hrect h
          · exact h
        simp [loopStepCA, hactf, hmcaf, hrect, hu]
  · linarith
  · linarith
  · linarith
  · linarith

theorem stretch_bounds_witness :
    (0 : ℚ) ≤ 5 ∧
    (loopStepCA sampleLockedCA 5 7).transform = some (1, 1, 0) ∧
    1 + min ((5 : ℚ) * (4 / 1000)) (3 / 10) ≤ 13 / 10 := by
  have h := stretch_bounds sampleRun sampleLockedCA 5 7 (by norm_num) rfl
    sampleRun_not_idle rfl rfl
  exact ⟨by norm_num, h.2.1.2 (Or.inl (by simp [sampleLockedCA])), h.2.2.2.1⟩

/-- One attachment pass is idempotent per element: the pass sets the
`__cursorAttached` marker on every element it touches, and marked elements
fail the candidate filter. -/
lemma attachOne_attachOne (el : CursorElem) : attachOne (attachOne el) = attachOne el := by
  by_cases h : el.matchesInteractive = true ∧ el.cursorAttached = false ∧ el.ignored = false
  · simp [attachOne, h]
  · simp [attachOne, h]

lemma attach_twice (els : List CursorElem) :
    attachCursorListeners (attachCursorListeners els) = attachCursorListeners els := by
  unfold attachCursorListeners
  rw [List.map_map]
  induction els with
  | nil => rfl
  | cons e t ih => simp_all [attachOne_attachOne]

/-- C8: `attachCursorListeners` is idempotent — the `__cursorAttached`
marker filters an element out of the candidate set, so: a marked element
is never touched again; any number `n + 1 ≥ 1` of consecutive runs equals
a single run (in particular a second consecutive run attaches no
listeners at all); and one run on a fresh element attaches exactly one
mouseenter/mouseleave listener pair when the element is eligible (matches
the selector list and is not ignored), none otherwise. -/
theorem attachCursorListeners_idempotent (els : List CursorElem) (n : Nat) :
    attachCursorListeners (attachCursorListeners els) = attachCursorListeners els ∧
    attachCursorListeners^[n + 1] els = attachCursorListeners els ∧
    (∀ el : CursorElem, el.cursorAttached = true → attachOne el = el) ∧
    (∀ el : CursorElem, el.cursorAttached = false → el.listenerPairs = 0 →
      (attachOne el).listenerPairs =
        (if el.matchesInteractive = true ∧ el.ignored = false then 1 else 0)) := by
  refine ⟨attach_twice els, ?_, ?_, ?_⟩
  · induction n with
    | zero => simp
    | succ k ih =>
        rw [Function.iterate_succ_apply', ih, attach_twice]
  · intro el hmark
    have : ¬ (el.matchesInteractive = true ∧ el.cursorAttached = false ∧
        el.ignored = false) := by
      rintro ⟨_, hc, _⟩
      rw [hmark] at hc
      cases hc
    simp [attachOne, this]
  · intro el hmark hzero
    by_cases helig : el.matchesInteractive = true ∧ el.ignored = false
    · simp [attachOne, hmark, hzero, helig]
    · have : ¬ (el.matchesInteractive = true ∧ el.cursorAttached = false ∧
          el.ignored = false) := by
        rintro ⟨h1, _, h3⟩
        exact helig ⟨h1, h3⟩
      simp [attachOne, this, helig, hzero]

theorem attachCursorListeners_idempotent_witness :
    attachCursorListeners (attachCursorListeners
        [(⟨true, false, false, 0⟩ : CursorElem), ⟨true, true, false, 0⟩,
         ⟨false, false, false, 0⟩]) =
      attachCursorListeners
        [(⟨true, false, false, 0⟩ : CursorElem), ⟨true, true, false, 0⟩,
         ⟨false, false, false, 0⟩] ∧
    (attachOne (⟨true, false, false, 0⟩ : CursorElem)).listenerPairs = 1 ∧
    attachOne (⟨true, false, true, 3⟩ : CursorElem) = ⟨true, false, true, 3⟩ := by
  have h := attachCursorListeners_idempotent
    [(⟨true, false, false, 0⟩ : CursorElem), ⟨true, true, false, 0⟩,
     ⟨false, false, false, 0⟩] 0
  refine ⟨h.1, ?_, h.2.2.1 ⟨true, false, true, 3⟩ rfl⟩
  have := h.2.2.2 ⟨true, false, false, 0⟩ rfl rfl
  simpa using this

/-- When exactly one list element satisfies `p`, `find?` returns it. -/
lemma find?_eq_of_countP_one {α : Type} (p : α → Bool) (l : List α) (a : α)
    (ha : a ∈ l) (hpa : p a = true) (h1 : l.countP p = 1) :
    l.find? p = some a := by
  induction l with
  | nil => cases ha
  | cons b t ih =>
      by_cases hpb : p b = true
      · have hct : t.countP p = 0 := by
          rw [List.countP_cons, hpb] at h1
          simpa using h1
        have hab : a = b := by
          rcases List.mem_cons.mp ha with h | h
          · exact h
          · exfalso
            have : 0 < t.countP p := List.countP_pos_iff.mpr ⟨a, h, hpa⟩
            omega
        rw [List.find?_cons_of_pos _ hpb, hab]
      · have hat : a ∈ t := by
          rcases List.mem_cons.mp ha with h | h
          · rw [h] at hpa; exact absurd hpa hpb
          · exact h
        have hct : t.countP p = 1 := by
          rw [List.countP_cons] at h1
          simp [hpb] at h1
          exact h1
        rw [List.find?_cons_of_neg _ hpb]
        exact ih hat hct

/-- After clearing and re-activating, a link is active iff its href is the
current hash, and its `aria-current` state agrees. -/
lemma scrollspy_link_states (cur : String) (links : List NavLink) :
    ((links.map fun a => { a with isActive := false, ariaCurrentPage := false }).map
        fun a => if a.href = cur then { a with isActive := true, ariaCurrentPage := true }
                 else a).countP (fun l => l.isActive)
      = links.countP (fun a => a.href = cur) ∧
    ∀ l ∈ (links.map fun a => { a with isActive := false, ariaCurrentPage := false }).map
        fun a => if a.href = cur then { a with isActive := true, ariaCurrentPage := true }
                 else a,
      l.ariaCurrentPage = l.isActive ∧ (l.isActive = true → l.href = cur) := by
  constructor
  · induction links with
    | nil => rfl
    | cons a t ih =>
        simp only [List.map_cons, List.countP_cons]
        rw [ih]
        by_cases h : a.href = cur <;> simp [h]
  · intro l hl
    rcases List.mem_map.mp hl with ⟨b, hbmem, hb⟩
    by_cases h : b.href = cur
    · rw [← hb]
      simp [h]
    · rcases List.mem_map.mp hbmem with ⟨c, _, hc⟩
      rw [← hb, if_neg h, ← hc]
      simp

/-- C4: when `window.scrollY ≥ 100` and the scroll position
`scrollY + innerHeight * 0.4` falls inside exactly one section's
`[offsetTop, offsetTop + offsetHeight)` span, and the page has exactly one
navigation link whose href targets that section, running the scroll-spy
update marks exactly one navigation link active — that section's link,
with `is-active` and `aria-current="page"` set together — and every other
link inactive with no `aria-current`. -/
theorem scrollspy_unique_active (scrollY innerHeight : ℚ)
    (sections : List PageSection) (links : List NavLink) (sec : PageSection)
    (h100 : 100 ≤ scrollY)
    (hmem : sec ∈ sections)
    (hin : inSection (scrollY + innerHeight * (2 / 5)) sec = true)
    (huniq : sections.countP (inSection (scrollY + innerHeight * (2 / 5))) = 1)
    (hlink : links.countP (fun a => a.href = "#" ++ sec.id) = 1) :
    (updateActiveState scrollY innerHeight sections links).countP
        (fun l => l.isActive) = 1 ∧
    ∀ l ∈ updateActiveState scrollY innerHeight sections links,
      l.ariaCurrentPage = l.isActive ∧ (l.isActive = true → l.href = "#" ++ sec.id) := by
  have hnot : ¬ scrollY < 100 := not_lt.mpr h100
  have hfind : sections.find? (inSection (scrollY + innerHeight * (2 / 5))) = some sec :=
    find?_eq_of_countP_one _ _ _ hmem hin huniq
  have hcur : computeCurrent scrollY innerHeight sections = some ("#" ++ sec.id) := by
    simp [computeCurrent, hnot, hfind]
  have hstates := scrollspy_link_states ("#" ++ sec.id) links
  constructor
  · rw [updateActiveState, hcur]
    rw [hstates.1]
    exact hlink
  · intro l hl
    apply hstates.2
    rw [updateActiveState, hcur] at hl
    exact hl

theorem scrollspy_unique_active_witness :
    (100 : ℚ) ≤ 500 ∧
    inSection ((500 : ℚ) + 1000 * (2 / 5)) ⟨"about", 800, 300⟩ = true ∧
    ([(⟨"main", 0, 800⟩ : PageSection), ⟨"about", 800, 300⟩,
      ⟨"contact", 1100, 400⟩].countP
        (inSection ((500 : ℚ) + 1000 * (2 / 5))) = 1) ∧
    (updateActiveState 500 1000
        [(⟨"main", 0, 800⟩ : PageSection), ⟨"about", 800, 300⟩, ⟨"contact", 1100, 400⟩]
        [(⟨"#main", false, false⟩ : NavLink), ⟨"#about", false, false⟩,
         ⟨"#contact", true, true⟩]).countP (fun l => l.isActive) = 1 := by
  have hin : inSection ((500 : ℚ) + 1000 * (2 / 5)) ⟨"about", 800, 300⟩ = true := by
    norm_num [inSection]
  have huniq : ([(⟨"main", 0, 800⟩ : PageSection), ⟨"about", 800, 300⟩,
      ⟨"contact", 1100, 400⟩].countP (inSection ((500 : ℚ) + 1000 * (2 / 5))) = 1) := by
    norm_num [List.countP_cons, inSection]
  have h := scrollspy_unique_active 500 1000
    [(⟨"main", 0, 800⟩ : PageSection), ⟨"about", 800, 300⟩, ⟨"contact", 1100, 400⟩]
    [(⟨"#main", false, false⟩ : NavLink), ⟨"#about", false, false⟩,
     ⟨"#contact", true, true⟩]
    ⟨"about", 800, 300⟩ (by norm_num) (by simp) hin huniq (by decide)
  exact ⟨by norm_num, hin, huniq, h.1⟩

/-- Every entry of the hard-coded palette library is an array of 4
hex-color strings. -/
lemma palette_library_good : PALETTE_LIBRARY.all goodPalette = true := by decide

lemma mem_library_good (p : List String) (hp : p ∈ PALETTE_LIBRARY) :
    goodPalette p = true :=
  List.all_eq_true.mp palette_library_good p hp

/-- The candidate palettes a card click can apply are the re-read current
palette and the library entries; all are well-formed when the stored value
is. -/
lemma cards_good (stored : Option (List String))
    (h : ∃ p, stored = some p ∧ goodPalette p = true) :
    ∀ c ∈ currentPalette stored :: PALETTE_LIBRARY, goodPalette c = true := by
  rintro c hc
  rcases List.mem_cons.mp hc with hh | hh
  · rcases h with ⟨p, hp, hg⟩
    rw [hh, currentPalette, hp]
    exact hg
  · exact mem_library_good c hh

/-- The palette-session invariant: the stored value is a well-formed
palette and every write so far was well-formed. -/
def runGood (r : PaletteRun) : Prop :=
  (∃ p, r.stored = some p ∧ goodPalette p = true) ∧
  ∀ w ∈ r.writes, goodPalette w = true

lemma paletteSelect_good (r : PaletteRun) (k : Nat) (hr : runGood r) :
    runGood (paletteSelect r k) := by
  have hlen : 0 < (currentPalette r.stored :: PALETTE_LIBRARY).length := by
    simp
  have hklt : k % (currentPalette r.stored :: PALETTE_LIBRARY).length <
      (currentPalette r.stored :: PALETTE_LIBRARY).length :=
    Nat.mod_lt k hlen
  have hmem : (currentPalette r.stored :: PALETTE_LIBRARY).getD
      (k % (currentPalette r.stored :: PALETTE_LIBRARY).length) [] ∈
      currentPalette r.stored :: PALETTE_LIBRARY := by
    rw [List.getD_eq_getElem _ _ hklt]
    exact List.getElem_mem hklt
  have hcgood := cards_good r.stored hr.1 _ hmem
  constructor
  · exact ⟨_, rfl, hcgood⟩
  · intro w hw
    simp only [paletteSelect, List.mem_append, List.mem_singleton] at hw
    rcases hw with hw | hw
    · exact hr.2 w hw
    · rw [hw]
      exact hcgood

lemma paletteInit_good (stored : Option (List String))
    (h : stored = none ∨ ∃ p, stored = some p ∧ goodPalette p = true) :
    runGood (paletteInit stored) := by
  have hcur : goodPalette (currentPalette stored) = true := by
    rcases h with h | ⟨p, hp, hg⟩
    · rw [h, currentPalette]
      exact mem_library_good _ (by simp [PALETTE_LIBRARY])
    · rw [currentPalette, hp]
      exact hg
  exact ⟨⟨_, rfl, hcur⟩, by
    intro w hw
    simp only [paletteInit, List.mem_singleton] at hw
    rw [hw]
    exact hcur⟩

lemma session_good (stored : Option (List String)) (ks : List Nat)
    (h : stored = none ∨ ∃ p, stored = some p ∧ goodPalette p = true) :
    runGood (paletteSession stored ks) := by
  rw [paletteSession]
  have hinit := paletteInit_good stored h
  generalize paletteInit stored = r at hinit ⊢
  induction ks generalizing r with
  | nil => exact hinit
  | cons k t ih =>
      rw [List.foldl_cons]
      exact ih _ (paletteSelect_good r k hinit)

/-- C9: the only value the bundle ever writes to `localStorage` key
`theme` is `'light'` or `'dark'`, and — provided the initially stored
`custom-palette` value is absent or parses to an array of 4 hex-color
strings — every value written to key `custom-palette` over a whole
session (initial `applyPalette` plus any sequence of palette-card clicks)
is an array of 4 hex-color strings. -/
theorem storage_writes_wellformed (isDark : Bool)
    (stored : Option (List String)) (ks : List Nat)
    (hst : stored = none ∨ ∃ p, stored = some p ∧ goodPalette p = true) :
    (themeWrite isDark = "light" ∨ themeWrite isDark = "dark") ∧
    ∀ w ∈ (paletteSession stored ks).writes, goodPalette w = true := by
  constructor
  · cases isDark
    · exact Or.inr rfl
    · exact Or.inl rfl
  · exact (session_good stored ks hst).2

theorem storage_writes_wellformed_witness :
    (themeWrite true = "light" ∨ themeWrite true = "dark") ∧
    ∀ w ∈ (paletteSession none [3, 0, 27]).writes, goodPalette w = true :=
  storage_writes_wellformed true none [3, 0, 27] (Or.inl rfl)

lemma oneHot_length (n i : Nat) : (oneHot n i).length = n := by
  simp [oneHot]

lemma replicate_set_false (n i : Nat) :
    (List.replicate n false).set i false = List.replicate n false := by
  induction n generalizing i with
  | zero => rfl
  | succ m ih =>
      cases i with
      | zero => simp [List.replicate_succ]
      | succ k => simp [List.replicate_succ, ih]

lemma oneHot_set_false (n i : Nat) :
    (oneHot n i).set i false = List.replicate n false := by
  rw [oneHot, List.set_set]
  exact replicate_set_false n i

/-- The first (and only) element of a one-hot class list carrying the class
is the hot index. -/
lemma firstCurrent_oneHot (n i : Nat) (hi : i < n) :
    firstCurrent (oneHot n i) = some i := by
  induction n generalizing i with
  | zero => omega
  | succ m ih =>
      cases i with
      | zero =>
          simp [firstCurrent, oneHot, List.replicate_succ, List.findIdx?_cons]
      | succ k =>
          have hk : k < m := by omega
          have : oneHot (m + 1) (k + 1) = false :: oneHot m k := by
            simp [oneHot, List.replicate_succ]
          rw [firstCurrent, this, List.findIdx?_cons]
          simp only [id, if_neg (by simp : ¬ (false = true))]
          rw [List.findIdx?_succ]
          have := ih k hk
          rw [firstCurrent] at this
          rw [this]
          rfl

lemma moveToSlide_oneHot (n i j : Nat) (hi : i < n) (hj : j < n) :
    moveToSlide ⟨oneHot n i, oneHot n i⟩ j = ⟨oneHot n j, oneHot n j⟩ := by
  have hfc := firstCurrent_oneHot n i hi
  have hlen : j < (oneHot n i).length := by
    rw [oneHot_length]; exact hj
  rw [moveToSlide]
  simp only [hfc, hlen, if_pos]
  rw [oneHot_set_false]
  have hlen2 : j < (List.replicate n false).length := by
    simp [hj]
  simp only [hlen2, if_pos]
  rfl

lemma showNextSlide_oneHot (n i : Nat) (hi : i < n) :
    showNextSlide ⟨oneHot n i, oneHot n i⟩ =
      ⟨oneHot n ((i + 1) % n), oneHot n ((i + 1) % n)⟩ := by
  have hfc := firstCurrent_oneHot n i hi
  rw [showNextSlide]
  simp only [hfc, oneHot_length]
  by_cases hend : i + 1 = n
  · have hle : ((oneHot n i).length : Int) ≤ (i : Int) + 1 := by
      rw [oneHot_length]; omega
    rw [if_pos (by simpa [oneHot_length] using hle)]
    have hmod : (i + 1) % n = 0 := by rw [hend]; exact Nat.mod_self n
    rw [hmod]
    exact moveToSlide_oneHot n i 0 hi (by omega)
  · have hlt : ¬ ((oneHot n i).length : Int) ≤ (i : Int) + 1 := by
      rw [oneHot_length]; omega
    rw [if_neg (by simpa [oneHot_length] using hlt)]
    have hmod : (i + 1) % n = i + 1 := Nat.mod_eq_of_lt (by omega)
    have htn : ((i : Int) + 1).toNat = i + 1 := by omega
    rw [hmod, htn]
    exact moveToSlide_oneHot n i (i + 1) hi (by omega)

lemma showPrevSlide_oneHot (n j : Nat) (hj : j < n) :
    showPrevSlide ⟨oneHot n j, oneHot n j⟩ =
      ⟨oneHot n ((j + (n - 1)) % n), oneHot n ((j + (n - 1)) % n)⟩ := by
  have hfc := firstCurrent_oneHot n j hj
  rw [showPrevSlide]
  simp only [hfc, oneHot_length]
  cases j with
  | zero =>
      simp only [Nat.cast_zero]
      rw [if_pos (by omega : (0 : Int) - 1 < 0)]
      have htn : ((n : Int) - 1).toNat = n - 1 := by omega
      have hmod : (0 + (n - 1)) % n = n - 1 := by
        rw [Nat.zero_add]
        exact Nat.mod_eq_of_lt (by omega)
      rw [htn, hmod]
      exact moveToSlide_oneHot n 0 (n - 1) hj (by omega)
  | succ k =>
      rw [if_neg (by omega : ¬ ((k + 1 : Nat) : Int) - 1 < 0)]
      have htn : (((k + 1 : Nat) : Int) - 1).toNat = k := by omega
      have hmod : (k + 1 + (n - 1)) % n = k := by
        have h1 : k + 1 + (n - 1) = k + n := by omega
        rw [h1, Nat.add_mod_right]
        exact Nat.mod_eq_of_lt (by omega)
      rw [htn, hmod]
      exact moveToSlide_oneHot n (k + 1) k hj (by omega)

/-- C10: starting from a carousel in which exactly one of the `n` slides
(and its dot) carries `current-slide`, at index `i`, `showNextSlide` moves
the class to index `(i + 1) % n` and `showPrevSlide` then moves it back,
restoring the original current slide and current dot. -/
theorem carousel_next_prev_roundtrip (n i : Nat) (hi : i < n) :
    (showNextSlide ⟨oneHot n i, oneHot n i⟩).slides = oneHot n ((i + 1) % n) ∧
    (showNextSlide ⟨oneHot n i, oneHot n i⟩).dots = oneHot n ((i + 1) % n) ∧
    showPrevSlide (showNextSlide ⟨oneHot n i, oneHot n i⟩) =
      ⟨oneHot n i, oneHot n i⟩ := by
  have hnext := showNextSlide_oneHot n i hi
  have hj : (i + 1) % n < n := Nat.mod_lt _ (by omega)
  refine ⟨by rw [hnext], by rw [hnext], ?_⟩
  rw [hnext, showPrevSlide_oneHot n ((i + 1) % n) hj]
  have hback : ((i + 1) % n + (n - 1)) % n = i := by
    by_cases hend : i + 1 = n
    · rw [hend, Nat.mod_self, Nat.zero_add]
      rw [Nat.mod_eq_of_lt (by omega)]
      omega
    · rw [Nat.mod_eq_of_lt (by omega : i + 1 < n)]
      have h1 : i + 1 + (n - 1) = i + n := by omega
      rw [h1, Nat.add_mod_right]
      exact Nat.mod_eq_of_lt hi
  rw [hback]

theorem carousel_next_prev_roundtrip_witness :
    (2 : Nat) < 3 ∧
    (showNextSlide ⟨oneHot 3 2, oneHot 3 2⟩).slides = oneHot 3 ((2 + 1) % 3) ∧
    showPrevSlide (showNextSlide ⟨oneHot 3 2, oneHot 3 2⟩) = ⟨oneHot 3 2, oneHot 3 2⟩ := by
  have h := carousel_next_prev_roundtrip 3 2 (by norm_num)
  exact ⟨by norm_num, h.1, h.2.2⟩

end Portfolio
